import Mathlib

/-!
Shallow embedding of the agent client scripts of this repository
(callDetectIntentAgent.py, callPromptAgent.py, callFabricAgent.py and the
setup scripts), together with theorems settling the specification claims.

The embedding models one iteration of each interactive loop as a pure
function from the raw input line and the outcome of the remote call to the
list of observable events (terminal prints, telemetry span attributes, the
remote request itself) and a control outcome (continue, halt, crash).
Behaviour of the Python standard library that the scripts rely on
(str.strip, str.lower, dict.get, truthiness, json.loads raising
JSONDecodeError on malformed text) is embedded explicitly; the outcome of
json.loads on the response text is passed as a parameter of type
ParseOutcome, since the JSON grammar itself is not code of this repository.
-/

/-- Parsed JSON values as produced by json.loads.  Numbers are modelled as
integers (the claims under study never depend on fractional values); a
Python float would carry type name "float" instead of "int". -/
inductive Json where
  | null : Json
  | bool (b : Bool) : Json
  | num (n : Int) : Json
  | str (s : String) : Json
  | arr (elems : List Json) : Json
  | obj (fields : List (String × Json)) : Json
deriving Repr

/-- Field lookup in a parsed JSON object.  json.loads keeps the last
occurrence of a duplicated key, so the lookup returns the last binding. -/
def lookupField : List (String × Json) → String → Option Json
  | [], _ => none
  | (k, v) :: rest, key =>
    match lookupField rest key with
    | some r => some r
    | none => if k = key then some v else none

/-- Python truthiness of a value produced by json.loads
(None, False, 0, "", [] and the empty dict are falsy). -/
def jsonTruthy : Json → Bool
  | .null => false
  | .bool b => b
  | .num n => n != 0
  | .str s => s != ""
  | .arr elems => !elems.isEmpty
  | .obj fields => !fields.isEmpty

/-- Python type name of a parsed JSON value, as it appears in an
AttributeError message. -/
def Json.pyType : Json → String
  | .null => "NoneType"
  | .bool _ => "bool"
  | .num _ => "int"
  | .str _ => "str"
  | .arr _ => "list"
  | .obj _ => "dict"

/-- Is the value a JSON object (a Python dict after json.loads)? -/
def Json.isObj : Json → Bool
  | .obj _ => true
  | _ => false

/-- Python exceptions that the embedded turn bodies can raise.
attributeError carries the type name of the receiver; its message text is
abbreviated (the exact CPython wording is not reproduced). -/
inductive PyExc where
  | attributeError (tyName : String) : PyExc
deriving Repr

/-- str(e) of the embedded exception, as printed by the outer handler. -/
def PyExc.message : PyExc → String
  | .attributeError tyName => tyName ++ " object has no attribute get"

/-- Python character-class test used by str.strip() with no argument:
true exactly for the code points Python considers whitespace. -/
def pyIsSpace (c : Char) : Bool :=
  (9 ≤ c.toNat && c.toNat ≤ 13) || (28 ≤ c.toNat && c.toNat ≤ 32) ||
  c.toNat == 0x85 || c.toNat == 0xa0 || c.toNat == 0x1680 ||
  (0x2000 ≤ c.toNat && c.toNat ≤ 0x200a) || c.toNat == 0x2028 ||
  c.toNat == 0x2029 || c.toNat == 0x202f || c.toNat == 0x205f ||
  c.toNat == 0x3000

/-- Remove leading and trailing Python whitespace from a character list. -/
def stripChars (l : List Char) : List Char :=
  ((l.dropWhile pyIsSpace).reverse.dropWhile pyIsSpace).reverse

/-- Python str.strip() with no argument. -/
def pyStrip (s : String) : String := ⟨stripChars s.data⟩

/-- Python str.lower(); the scripts only compare against the ASCII exit
tokens, so ASCII case mapping (Char.toLower) suffices. -/
def pyLower (s : String) : String := ⟨s.data.map Char.toLower⟩

/-- The exit tokens recognised by every interactive loop. -/
def exitTokens : List String := ["exit", "quit", "q"]

/-- Identity of the agent version object retrieved at startup
(agent.name, agent.version, agent.id). -/
structure AgentInfo where
  name : String
  version : String
  id : Option String
deriving Repr

/-- Python expression `agent.id or "unknown"`. -/
def AgentInfo.idOrUnknown (a : AgentInfo) : String :=
  match a.id with
  | some s => if s = "" then "unknown" else s
  | none => "unknown"

/-- Observable events of one loop iteration, in program order: telemetry
span attributes, the remote request, terminal prints. -/
inductive Event where
  | spanAttr (key : String) (value : Json) : Event
  | remoteCall (input : String) : Event
  | printText (s : String) : Event
  | resultHeader : Event
  | fieldIntent (v : Json) : Event
  | fieldNextAgent (v : Json) : Event
  | fieldConfidence (v : Json) : Event
  | fieldReasoning (v : Json) : Event
  | fieldAdditionalAgents (v : Json) : Event
  | resultFooter : Event
  | notJson (raw : String) : Event
  | errorMsg (msg : String) : Event
  | goodbye : Event
  | hint (s : String) : Event
deriving Repr

/-- Control outcome of one loop iteration.  crash would mean an exception
escaped every handler and terminated the process; the theorems show the
embedded bodies never produce it. -/
inductive Control where
  | next : Control
  | halt : Control
  | crash (msg : String) : Control
deriving Repr

/-- Outcome of the (non-streaming) remote invocation openai_client.responses.create:
either the response object with its output_text, or a raised exception with
its str() message. -/
inductive CallOutcome where
  | success (responseText : String) : CallOutcome
  | raises (msg : String) : CallOutcome

/-- Outcome of json.loads on the response text: the parsed value, or the
JSONDecodeError raised on syntactically invalid JSON. -/
inductive ParseOutcome where
  | ok (value : Json) : ParseOutcome
  | decodeError : ParseOutcome

/-- Python dict.get(key, default) on a parsed JSON value: on a dict the
lookup with default, on any other value an AttributeError (no such method). -/
def pyGet (v : Json) (key : String) (dflt : Json) : Except PyExc Json :=
  match v with
  | .obj fields => .ok ((lookupField fields key).getD dflt)
  | other => .error (.attributeError other.pyType)

/-- The field-display block of callDetectIntentAgent.py that follows the
"Intent Classification Result" header: the four field prints with their
N/A defaults, the conditional additional-agents print, the footer, and the
three span attributes set from a second round of dict.get calls. -/
def displayBody (r : Json) : Except PyExc (List Event) := do
  let vi ← pyGet r "intent" (.str "N/A")
  let vn ← pyGet r "nextAgent" (.str "N/A")
  let vc ← pyGet r "confidence" (.str "N/A")
  let vr ← pyGet r "reasoning" (.str "N/A")
  let vm ← pyGet r "requiresMultipleAgents" .null
  let extra ←
    if jsonTruthy vm then do
      let va ← pyGet r "additionalAgents" (.arr [])
      pure [Event.fieldAdditionalAgents va]
    else
      pure ([] : List Event)
  let si ← pyGet r "intent" (.str "unknown")
  let sn ← pyGet r "nextAgent" (.str "unknown")
  let sc ← pyGet r "confidence" (.num 0)
  pure ([Event.fieldIntent vi, Event.fieldNextAgent vn,
         Event.fieldConfidence vc, Event.fieldReasoning vr] ++ extra ++
        [Event.resultFooter,
         Event.spanAttr "intent.category" si,
         Event.spanAttr "intent.next_agent" sn,
         Event.spanAttr "intent.confidence" sc])

/-- The inner try/except of callDetectIntentAgent.py around json.loads:
on JSONDecodeError the raw text is printed as not JSON and the span error
attribute is set; on a parsed value the header is printed and the display
block runs, whose AttributeError (if any) escapes this handler. -/
def handleParsed (responseText : String) (po : ParseOutcome) :
    List Event × Option PyExc :=
  match po with
  | .decodeError =>
    ([.notJson responseText, .spanAttr "error" (.str "Invalid JSON response")], none)
  | .ok r =>
    match displayBody r with
    | .ok evs => (Event.resultHeader :: evs, none)
    | .error e => ([Event.resultHeader], some e)

/-- One span-wrapped turn of callDetectIntentAgent.py for a forwarded
message: the four span attributes, the remote call, and either the
response handling or the outer generic exception handler. -/
def detectTurn (agent : AgentInfo) (userMessage : String)
    (call : CallOutcome) (po : ParseOutcome) : List Event × Control :=
  let pre : List Event :=
    [.spanAttr "agent.name" (.str agent.name),
     .spanAttr "agent.version" (.str agent.version),
     .spanAttr "agent.id" (.str agent.idOrUnknown),
     .spanAttr "user.message" (.str userMessage)]
  match call with
  | .raises msg =>
    (pre ++ [.remoteCall userMessage, .errorMsg msg, .spanAttr "error" (.str msg)],
     .next)
  | .success text =>
    let pre2 := pre ++ [.remoteCall userMessage, .spanAttr "response.raw" (.str text)]
    match handleParsed text po with
    | (evs, none) => (pre2 ++ evs, .next)
    | (evs, some e) =>
      (pre2 ++ evs ++ [.errorMsg e.message, .spanAttr "error" (.str e.message)],
       .next)

/-- One iteration of the interactive loop of callDetectIntentAgent.py:
strip the raw line, skip empty input, recognise the exit tokens, otherwise
run the turn body. -/
def detectLoopStep (agent : AgentInfo) (rawLine : String)
    (call : CallOutcome) (po : ParseOutcome) : List Event × Control :=
  let userMessage := pyStrip rawLine
  if userMessage = "" then
    ([], .next)
  else if pyLower userMessage ∈ exitTokens then
    ([.goodbye], .halt)
  else
    detectTurn agent userMessage call po

/-- Events yielded by iterating a streaming responses.create call, as
matched by the event loops of callPromptAgent.py and callFabricAgent.py. -/
inductive StreamEvent where
  | created (responseId : String) : StreamEvent
  | outputTextDelta (delta : String) : StreamEvent
  | completed : StreamEvent
  | otherEvent : StreamEvent

/-- Outcome of a streaming remote invocation: the full event sequence, or
the events observed before an exception was raised together with its
str() message (raisedAfter [] msg is responses.create itself raising). -/
inductive StreamOutcome where
  | ok (events : List StreamEvent) : StreamOutcome
  | raisedAfter (events : List StreamEvent) (msg : String) : StreamOutcome

/-- One step of the streaming for-loop shared by callPromptAgent.py and
callFabricAgent.py: the accumulator is the events emitted so far and the
full_response string. -/
def streamStep (acc : List Event × String) (e : StreamEvent) :
    List Event × String :=
  match e with
  | .created rid => (acc.1 ++ [.spanAttr "response.id" (.str rid)], acc.2)
  | .outputTextDelta d => (acc.1 ++ [.printText d], acc.2 ++ d)
  | .completed =>
    (acc.1 ++ [.spanAttr "response.output_length" (.num acc.2.data.length)], acc.2)
  | .otherEvent => acc

/-- Process a whole sequence of stream events. -/
def processStream (sevs : List StreamEvent) : List Event × String :=
  sevs.foldl streamStep ([], "")

/-- One span-wrapped turn of callPromptAgent.py for a forwarded question:
span attributes, the Agent prompt print, the streaming call with its event
loop, and the per-request exception handler. -/
def promptTurn (agent : AgentInfo) (userQuestion : String)
    (call : StreamOutcome) : List Event × Control :=
  let pre : List Event :=
    [.spanAttr "agent.name" (.str agent.name),
     .spanAttr "agent.version" (.str agent.version),
     .spanAttr "agent.id" (.str agent.idOrUnknown),
     .spanAttr "user.question" (.str userQuestion),
     .printText "Agent: ",
     .remoteCall userQuestion]
  match call with
  | .ok sevs => (pre ++ (processStream sevs).1 ++ [.printText ""], .next)
  | .raisedAfter sevs msg =>
    (pre ++ (processStream sevs).1 ++ [.errorMsg msg, .spanAttr "error" (.str msg)],
     .next)

/-- One iteration of the interactive loop of callPromptAgent.py. -/
def promptLoopStep (agent : AgentInfo) (rawLine : String)
    (call : StreamOutcome) : List Event × Control :=
  let userQuestion := pyStrip rawLine
  if userQuestion = "" then
    ([], .next)
  else if pyLower userQuestion ∈ exitTokens then
    ([.goodbye], .halt)
  else
    promptTurn agent userQuestion call

/-- Substring test (Python `in` on strings). -/
def strContains (hay pat : String) : Bool :=
  decide (pat.data <:+: hay.data)

/-- The troubleshooting hints callFabricAgent.py prints after a remote
call failure, keyed on the exception message. -/
def fabricHints (msg : String) : List Event :=
  if strContains (pyLower msg) "unauthorized" then
    [.hint "access"]
  else if strContains (pyLower msg) "not found" then
    [.hint "published"]
  else if strContains msg "BadRequest" then
    [.hint "artifact"]
  else
    []

/-- One span-wrapped turn of callFabricAgent.py for a forwarded question:
as promptTurn (with tool_choice required on the request), plus the
troubleshooting hints in the exception handler. -/
def fabricTurn (agent : AgentInfo) (userQuestion : String)
    (call : StreamOutcome) : List Event × Control :=
  let pre : List Event :=
    [.spanAttr "agent.name" (.str agent.name),
     .spanAttr "agent.version" (.str agent.version),
     .spanAttr "agent.id" (.str agent.idOrUnknown),
     .spanAttr "user.question" (.str userQuestion),
     .printText "Agent: ",
     .remoteCall userQuestion]
  match call with
  | .ok sevs => (pre ++ (processStream sevs).1 ++ [.printText ""], .next)
  | .raisedAfter sevs msg =>
    (pre ++ (processStream sevs).1 ++
      [.errorMsg msg, .spanAttr "error" (.str msg)] ++ fabricHints msg,
     .next)

/-- One iteration of the interactive loop of callFabricAgent.py. -/
def fabricLoopStep (agent : AgentInfo) (rawLine : String)
    (call : StreamOutcome) : List Event × Control :=
  let userQuestion := pyStrip rawLine
  if userQuestion = "" then
    ([], .next)
  else if pyLower userQuestion ∈ exitTokens then
    ([.goodbye], .halt)
  else
    fabricTurn agent userQuestion call

/-! ### Script startup: configuration validation before any network call -/

/-- The process environment as seen by os.getenv: none for an unset
variable. -/
def Env : Type := String → Option String

/-- Python `not os.getenv(var)`: unset or set to the empty string. -/
def pyFalsyEnv (v : Option String) : Bool :=
  match v with
  | none => true
  | some s => s == ""

/-- Startup events of a script, in program order. -/
inductive StartupEvent where
  | raiseMissing (msg : String) : StartupEvent
  | constructClient (endpoint : Option String) : StartupEvent
  | networkCall : StartupEvent
deriving Repr

/-- Startup of callDetectIntentAgent.py: read the endpoint, raise
ValueError if it is falsy, otherwise construct the AIProjectClient and
issue the first network request (list_versions). -/
def detectClientStartup (env : Env) : List StartupEvent :=
  let pe := env "AZURE_AI_PROJECT_ENDPOINT"
  if pyFalsyEnv pe then
    [.raiseMissing "Missing required environment variable: AZURE_AI_PROJECT_ENDPOINT"]
  else
    [.constructClient pe, .networkCall]

/-- Startup of callFabricAgent.py: same validation of the project
endpoint before the client is constructed. -/
def fabricClientStartup (env : Env) : List StartupEvent :=
  let pe := env "AZURE_AI_PROJECT_ENDPOINT"
  if pyFalsyEnv pe then
    [.raiseMissing "Missing required environment variable: AZURE_AI_PROJECT_ENDPOINT"]
  else
    [.constructClient pe, .networkCall]

/-- Startup of callPromptAgent.py: no validation at all; the client is
constructed with whatever os.getenv returned (possibly None) and the first
network request is issued. -/
def promptClientStartup (env : Env) : List StartupEvent :=
  let pe := env "AZURE_AI_PROJECT_ENDPOINT"
  [.constructClient pe, .networkCall]

/-- The required_vars list of createDetectIntentAgent.py. -/
def requiredVarsDetectSetup : List String :=
  ["AZURE_AI_PROJECT_ENDPOINT", "AZURE_AI_MODEL_DEPLOYMENT_NAME"]

/-- Startup of createDetectIntentAgent.py: collect the falsy required
variables, raise ValueError naming them if any, otherwise construct the
client and issue the create_version request. -/
def createDetectIntentStartup (env : Env) : List StartupEvent :=
  let missing := requiredVarsDetectSetup.filter (fun v => pyFalsyEnv (env v))
  if missing.isEmpty then
    [.constructClient (env "AZURE_AI_PROJECT_ENDPOINT"), .networkCall]
  else
    [.raiseMissing ("Missing required environment variables: " ++
      String.intercalate ", " missing)]

/-- Does an event list record a remote request? -/
def isRemoteCall : Event → Bool
  | .remoteCall _ => true
  | _ => false

/-- Number of remote requests recorded in an event list (used to state
that nothing is retried). -/
def remoteCallCount (evs : List Event) : Nat := evs.countP isRemoteCall

/-! ### Helper lemmas -/

/-- An ASCII capital letter is not Python whitespace. -/
lemma pyIsSpace_false_of_upper {c : Char} (h1 : 65 ≤ c.toNat)
    (h2 : c.toNat ≤ 90) : pyIsSpace c = false := by
  simp only [pyIsSpace, Bool.or_eq_false_iff, Bool.and_eq_false_iff,
    decide_eq_false_iff_not, not_le, beq_eq_false_iff_ne, ne_eq]
  omega

/-- A character whose ASCII lowering is not Python whitespace is not
Python whitespace itself. -/
lemma pyIsSpace_false_of_toLower {c : Char}
    (hd : pyIsSpace c.toLower = false) : pyIsSpace c = false := by
  by_cases hc : c.toNat ≥ 65 ∧ c.toNat ≤ 90
  · exact pyIsSpace_false_of_upper hc.1 hc.2
  · unfold Char.toLower at hd
    simp only [if_neg hc] at hd
    exact hd

/-- If the lowering of a line is a string with no whitespace characters,
the line itself has no whitespace characters. -/
lemma no_space_of_pyLower {line t : String} (ht : pyLower line = t)
    (hall : ∀ d ∈ t.data, pyIsSpace d = false) :
    ∀ c ∈ line.data, pyIsSpace c = false := by
  intro c hc
  have hmem : c.toLower ∈ t.data := by
    subst ht
    simpa [pyLower] using List.mem_map_of_mem Char.toLower hc
  exact pyIsSpace_false_of_toLower (hall _ hmem)

/-- dropWhile is the identity on a list none of whose elements satisfy
the predicate. -/
lemma dropWhile_eq_self_of_all {p : Char → Bool} {l : List Char}
    (h : ∀ c ∈ l, p c = false) : l.dropWhile p = l := by
  cases l with
  | nil => rfl
  | cons a l =>
    rw [List.dropWhile_cons_of_neg]
    simp [h a (by simp)]

/-- Stripping a list with no whitespace characters is the identity. -/
lemma stripChars_eq_self {l : List Char}
    (h : ∀ c ∈ l, pyIsSpace c = false) : stripChars l = l := by
  unfold stripChars
  rw [dropWhile_eq_self_of_all h, dropWhile_eq_self_of_all, List.reverse_reverse]
  intro c hc
  exact h c (List.mem_reverse.mp hc)

/-- Stripping a list of whitespace characters yields the empty list. -/
lemma stripChars_eq_nil {l : List Char}
    (h : ∀ c ∈ l, pyIsSpace c = true) : stripChars l = [] := by
  have h1 : l.dropWhile pyIsSpace = [] :=
    List.dropWhile_eq_nil_iff.mpr (by simpa using h)
  unfold stripChars
  rw [h1]
  rfl

/-- A line whose lowering is an exit token is unchanged by str.strip()
and is not empty. -/
lemma exit_line_fixed {line : String} (h : pyLower line ∈ exitTokens) :
    pyStrip line = line ∧ line ≠ "" := by
  simp only [exitTokens, List.mem_cons, List.not_mem_nil, or_false] at h
  have hall : ∀ c ∈ line.data, pyIsSpace c = false := by
    rcases h with h | h | h
    · exact no_space_of_pyLower h (by decide)
    · exact no_space_of_pyLower h (by decide)
    · exact no_space_of_pyLower h (by decide)
  refine ⟨?_, ?_⟩
  · show (⟨stripChars line.data⟩ : String) = line
    rw [stripChars_eq_self hall]
  · intro h0
    subst h0
    rcases h with h | h | h <;> exact absurd h (by decide)

/-- The streaming event loop emits no remote request of its own. -/
lemma streamFold_no_remoteCall (sevs : List StreamEvent)
    (acc : List Event × String) :
    (sevs.foldl streamStep acc).1.countP isRemoteCall =
      acc.1.countP isRemoteCall := by
  induction sevs generalizing acc with
  | nil => rfl
  | cons e rest ih =>
    rw [List.foldl_cons, ih]
    cases e <;> simp [streamStep, List.countP_append, isRemoteCall]

/-- No event emitted by the streaming event loop is a remote request. -/
lemma streamFold_remoteCall_not_mem (sevs : List StreamEvent)
    (acc : List Event × String) (s : String)
    (hacc : Event.remoteCall s ∉ acc.1) :
    Event.remoteCall s ∉ (sevs.foldl streamStep acc).1 := by
  induction sevs generalizing acc with
  | nil => exact hacc
  | cons e rest ih =>
    rw [List.foldl_cons]
    refine ih _ ?_
    cases e <;> simp [streamStep, hacc]

/-! ### Claims -/

/-- C1: when json.loads fails on the response payload, the
intent-classification consumer does not crash: the turn ends with control
next (the loop continues), the raw text is printed as not JSON, the span
carries the error attribute, and no routing decision (no next-agent
display, no intent routing span attributes) is made. -/
theorem c1_unparsed_payload_no_crash (agent : AgentInfo)
    (userMessage responseText : String) :
    (detectTurn agent userMessage (.success responseText) .decodeError).2 =
      Control.next ∧
    Event.notJson responseText ∈
      (detectTurn agent userMessage (.success responseText) .decodeError).1 ∧
    Event.spanAttr "error" (.str "Invalid JSON response") ∈
      (detectTurn agent userMessage (.success responseText) .decodeError).1 ∧
    (∀ v, Event.fieldNextAgent v ∉
      (detectTurn agent userMessage (.success responseText) .decodeError).1) ∧
    (∀ v, Event.spanAttr "intent.next_agent" v ∉
      (detectTurn agent userMessage (.success responseText) .decodeError).1) ∧
    (∀ v, Event.spanAttr "intent.category" v ∉
      (detectTurn agent userMessage (.success responseText) .decodeError).1) := by
  refine ⟨rfl, ?_, ?_, ?_, ?_, ?_⟩ <;>
    simp [detectTurn, handleParsed]

/-- C2: in each of the three interactive loops, a line whose
case-insensitive content is one of the exit tokens exit, quit, q halts the
loop with the goodbye message and is never forwarded to the remote call. -/
theorem c2_exit_tokens_halt (agent : AgentInfo) (line : String)
    (call : CallOutcome) (po : ParseOutcome) (scall : StreamOutcome)
    (h : pyLower line ∈ exitTokens) :
    detectLoopStep agent line call po = ([.goodbye], .halt) ∧
    promptLoopStep agent line scall = ([.goodbye], .halt) ∧
    fabricLoopStep agent line scall = ([.goodbye], .halt) ∧
    (∀ s, Event.remoteCall s ∉ [Event.goodbye]) := by
  obtain ⟨hs, hne⟩ := exit_line_fixed h
  refine ⟨?_, ?_, ?_, by simp⟩ <;>
    simp [detectLoopStep, promptLoopStep, fabricLoopStep, hs, hne, h]

/-- Witness for c2_exit_tokens_halt at the concrete line QUIT. -/
theorem c2_exit_tokens_halt_witness :
    detectLoopStep ⟨"DetectUserIntentAgent", "1", none⟩ "QUIT"
      (.raises "boom") .decodeError = ([.goodbye], .halt) :=
  (c2_exit_tokens_halt ⟨"DetectUserIntentAgent", "1", none⟩ "QUIT"
    (.raises "boom") .decodeError (.ok []) (by decide)).1

/-- C3: in each of the three interactive loops, a line that is empty or
whitespace-only produces no events at all (in particular no network call)
and the loop re-prompts. -/
theorem c3_blank_line_reprompts (agent : AgentInfo) (line : String)
    (call : CallOutcome) (po : ParseOutcome) (scall : StreamOutcome)
    (h : ∀ c ∈ line.data, pyIsSpace c = true) :
    detectLoopStep agent line call po = ([], .next) ∧
    promptLoopStep agent line scall = ([], .next) ∧
    fabricLoopStep agent line scall = ([], .next) := by
  have hstrip : pyStrip line = "" := by
    show (⟨stripChars line.data⟩ : String) = ""
    rw [stripChars_eq_nil h]
  refine ⟨?_, ?_, ?_⟩ <;>
    simp [detectLoopStep, promptLoopStep, fabricLoopStep, hstrip]

/-- Witness for c3_blank_line_reprompts at a concrete whitespace line. -/
theorem c3_blank_line_reprompts_witness :
    detectLoopStep ⟨"DetectUserIntentAgent", "1", none⟩ " \t "
      (.raises "boom") .decodeError = ([], .next) :=
  (c3_blank_line_reprompts ⟨"DetectUserIntentAgent", "1", none⟩ " \t "
    (.raises "boom") .decodeError (.ok []) (by decide)).1

/-- C5: in every client, a turn whose remote invocation raises an
exception ends with the exception caught: its message is printed and
recorded on the span, exactly one remote request was made (no retry), and
the loop continues (control next, not halt or crash).  For the streaming
clients the exception may strike after a prefix of stream events. -/
theorem c5_remote_failure_caught (agent : AgentInfo) (msg m : String)
    (po : ParseOutcome) (pre : List StreamEvent) :
    ((detectTurn agent msg (.raises m) po).2 = Control.next ∧
     Event.errorMsg m ∈ (detectTurn agent msg (.raises m) po).1 ∧
     Event.spanAttr "error" (.str m) ∈ (detectTurn agent msg (.raises m) po).1 ∧
     remoteCallCount (detectTurn agent msg (.raises m) po).1 = 1) ∧
    ((promptTurn agent msg (.raisedAfter pre m)).2 = Control.next ∧
     Event.errorMsg m ∈ (promptTurn agent msg (.raisedAfter pre m)).1 ∧
     Event.spanAttr "error" (.str m) ∈ (promptTurn agent msg (.raisedAfter pre m)).1 ∧
     remoteCallCount (promptTurn agent msg (.raisedAfter pre m)).1 = 1) ∧
    ((fabricTurn agent msg (.raisedAfter pre m)).2 = Control.next ∧
     Event.errorMsg m ∈ (fabricTurn agent msg (.raisedAfter pre m)).1 ∧
     Event.spanAttr "error" (.str m) ∈ (fabricTurn agent msg (.raisedAfter pre m)).1 ∧
     remoteCallCount (fabricTurn agent msg (.raisedAfter pre m)).1 = 1) := by
  have h0 := streamFold_no_remoteCall pre ([], "")
  have h1 : (fabricHints m).countP isRemoteCall = 0 := by
    unfold fabricHints
    split
    · rfl
    · split
      · rfl
      · split <;> rfl
  refine ⟨⟨rfl, ?_, ?_, ?_⟩, ⟨rfl, ?_, ?_, ?_⟩, ⟨rfl, ?_, ?_, ?_⟩⟩ <;>
    simp [detectTurn, promptTurn, fabricTurn, processStream, remoteCallCount,
      List.countP_append, List.countP_cons, isRemoteCall, h0, h1]

/-- C6: a payload parsed as an object carrying the four required fields
has each field value displayed verbatim, and the turn completes normally. -/
theorem c6_required_fields_verbatim (agent : AgentInfo) (msg text : String)
    (fields : List (String × Json)) (vi vn vc vr : Json)
    (hi : lookupField fields "intent" = some vi)
    (hn : lookupField fields "nextAgent" = some vn)
    (hc : lookupField fields "confidence" = some vc)
    (hr : lookupField fields "reasoning" = some vr) :
    Event.fieldIntent vi ∈
      (detectTurn agent msg (.success text) (.ok (.obj fields))).1 ∧
    Event.fieldNextAgent vn ∈
      (detectTurn agent msg (.success text) (.ok (.obj fields))).1 ∧
    Event.fieldConfidence vc ∈
      (detectTurn agent msg (.success text) (.ok (.obj fields))).1 ∧
    Event.fieldReasoning vr ∈
      (detectTurn agent msg (.success text) (.ok (.obj fields))).1 ∧
    (detectTurn agent msg (.success text) (.ok (.obj fields))).2 =
      Control.next := by
  by_cases hm : jsonTruthy
      ((lookupField fields "requiresMultipleAgents").getD Json.null) = true <;>
    refine ⟨?_, ?_, ?_, ?_, ?_⟩ <;>
    simp [detectTurn, handleParsed, displayBody, pyGet, hi, hn, hc, hr, hm,
      bind, Except.bind, pure, Except.pure]

/-- Witness for c6_required_fields_verbatim on a concrete payload. -/
theorem c6_required_fields_verbatim_witness :
    Event.fieldIntent (.str "workforce_query") ∈
      (detectTurn ⟨"DetectUserIntentAgent", "1", none⟩ "who is certified"
        (.success "payload")
        (.ok (.obj [("intent", .str "workforce_query"),
                    ("nextAgent", .str "WorkforceAgent"),
                    ("confidence", .num 1),
                    ("reasoning", .str "skills question")]))).1 :=
  (c6_required_fields_verbatim ⟨"DetectUserIntentAgent", "1", none⟩
    "who is certified" "payload"
    [("intent", .str "workforce_query"),
     ("nextAgent", .str "WorkforceAgent"),
     ("confidence", .num 1),
     ("reasoning", .str "skills question")]
    (.str "workforce_query") (.str "WorkforceAgent") (.num 1)
    (.str "skills question") rfl rfl rfl rfl).1

/-- C7: a payload parsed as an object missing any of the four documented
fields has the N/A sentinel displayed in its place, and the turn does not
fail: control is next and no error message is printed. -/
theorem c7_missing_fields_sentinel (agent : AgentInfo) (msg text : String)
    (fields : List (String × Json)) :
    (lookupField fields "intent" = none →
      Event.fieldIntent (.str "N/A") ∈
        (detectTurn agent msg (.success text) (.ok (.obj fields))).1) ∧
    (lookupField fields "nextAgent" = none →
      Event.fieldNextAgent (.str "N/A") ∈
        (detectTurn agent msg (.success text) (.ok (.obj fields))).1) ∧
    (lookupField fields "confidence" = none →
      Event.fieldConfidence (.str "N/A") ∈
        (detectTurn agent msg (.success text) (.ok (.obj fields))).1) ∧
    (lookupField fields "reasoning" = none →
      Event.fieldReasoning (.str "N/A") ∈
        (detectTurn agent msg (.success text) (.ok (.obj fields))).1) ∧
    (detectTurn agent msg (.success text) (.ok (.obj fields))).2 =
      Control.next ∧
    (∀ e, Event.errorMsg e ∉
      (detectTurn agent msg (.success text) (.ok (.obj fields))).1) := by
  by_cases hm : jsonTruthy
      ((lookupField fields "requiresMultipleAgents").getD Json.null) = true <;>
  exact ⟨fun h => by
      simp [detectTurn, handleParsed, displayBody, pyGet, hm, h,
        bind, Except.bind, pure, Except.pure],
    fun h => by
      simp [detectTurn, handleParsed, displayBody, pyGet, hm, h,
        bind, Except.bind, pure, Except.pure],
    fun h => by
      simp [detectTurn, handleParsed, displayBody, pyGet, hm, h,
        bind, Except.bind, pure, Except.pure],
    fun h => by
      simp [detectTurn, handleParsed, displayBody, pyGet, hm, h,
        bind, Except.bind, pure, Except.pure],
    by
      simp [detectTurn, handleParsed, displayBody, pyGet, hm,
        bind, Except.bind, pure, Except.pure],
    fun e => by
      simp [detectTurn, handleParsed, displayBody, pyGet, hm,
        bind, Except.bind, pure, Except.pure]⟩

/-- Witness for c7_missing_fields_sentinel on the empty object payload. -/
theorem c7_missing_fields_sentinel_witness :
    Event.fieldIntent (.str "N/A") ∈
      (detectTurn ⟨"DetectUserIntentAgent", "1", none⟩ "hello"
        (.success "payload") (.ok (.obj []))).1 ∧
    Event.fieldReasoning (.str "N/A") ∈
      (detectTurn ⟨"DetectUserIntentAgent", "1", none⟩ "hello"
        (.success "payload") (.ok (.obj []))).1 :=
  ⟨(c7_missing_fields_sentinel ⟨"DetectUserIntentAgent", "1", none⟩ "hello"
      "payload" []).1 rfl,
   (c7_missing_fields_sentinel ⟨"DetectUserIntentAgent", "1", none⟩ "hello"
      "payload" []).2.2.2.1 rfl⟩

/-- C8 counterexample: on the payload whose requiresMultipleAgents field
is the number 1 (not the boolean true), the consumer still surfaces
additionalAgents, because the code tests Python truthiness rather than
the boolean value; so surfacing is not equivalent to the field being
present and true. -/
theorem c8_counterexample :
    Event.fieldAdditionalAgents (.arr []) ∈
      (detectTurn ⟨"DetectUserIntentAgent", "1", none⟩ "m" (.success "t")
        (.ok (.obj [("requiresMultipleAgents", Json.num 1)]))).1 ∧
    lookupField [("requiresMultipleAgents", Json.num 1)]
      "requiresMultipleAgents" ≠ some (.bool true) := by
  constructor
  · simp [detectTurn, handleParsed, displayBody, pyGet, lookupField, jsonTruthy,
      bind, Except.bind, pure, Except.pure]
  · simp [lookupField]

/-- C8 (amended): the consumer surfaces additionalAgents exactly when the
requiresMultipleAgents field is present with a Python-truthy value (for
boolean values, present and true); when surfacing with additionalAgents
absent the empty list is shown; an absent requiresMultipleAgents is falsy
and nothing is surfaced. -/
theorem c8_truthy_gates_additional_agents (agent : AgentInfo)
    (msg text : String) (fields : List (String × Json)) :
    ((∃ v, Event.fieldAdditionalAgents v ∈
        (detectTurn agent msg (.success text) (.ok (.obj fields))).1) ↔
      jsonTruthy ((lookupField fields "requiresMultipleAgents").getD Json.null)
        = true) ∧
    (jsonTruthy ((lookupField fields "requiresMultipleAgents").getD Json.null)
        = true →
      lookupField fields "additionalAgents" = none →
      Event.fieldAdditionalAgents (.arr []) ∈
        (detectTurn agent msg (.success text) (.ok (.obj fields))).1) ∧
    (lookupField fields "requiresMultipleAgents" = none →
      ∀ v, Event.fieldAdditionalAgents v ∉
        (detectTurn agent msg (.success text) (.ok (.obj fields))).1) := by
  by_cases hm : jsonTruthy
      ((lookupField fields "requiresMultipleAgents").getD Json.null) = true
  · refine ⟨?_, fun _ ha => ?_, fun h0 => ?_⟩
    · simp only [hm, iff_true]
      exact ⟨(lookupField fields "additionalAgents").getD (.arr []), by
        simp [detectTurn, handleParsed, displayBody, pyGet, hm,
          bind, Except.bind, pure, Except.pure]⟩
    · simp [detectTurn, handleParsed, displayBody, pyGet, hm, ha,
        bind, Except.bind, pure, Except.pure]
    · rw [h0] at hm
      simp [jsonTruthy] at hm
  · rw [Bool.not_eq_true] at hm
    refine ⟨?_, fun h _ => Bool.noConfusion (hm ▸ h), fun _ v => ?_⟩
    · constructor
      · rintro ⟨v, hv⟩
        exfalso
        revert hv
        simp [detectTurn, handleParsed, displayBody, pyGet, hm,
          bind, Except.bind, pure, Except.pure]
      · intro h
        exact Bool.noConfusion (hm ▸ h)
    · simp [detectTurn, handleParsed, displayBody, pyGet, hm,
        bind, Except.bind, pure, Except.pure]

/-- Witness for c8_truthy_gates_additional_agents: with
requiresMultipleAgents true and additionalAgents absent, the empty list
is surfaced. -/
theorem c8_truthy_gates_additional_agents_witness :
    Event.fieldAdditionalAgents (.arr []) ∈
      (detectTurn ⟨"DetectUserIntentAgent", "1", none⟩ "m" (.success "t")
        (.ok (.obj [("requiresMultipleAgents", .bool true)]))).1 :=
  (c8_truthy_gates_additional_agents ⟨"DetectUserIntentAgent", "1", none⟩
    "m" "t" [("requiresMultipleAgents", .bool true)]).2.1 rfl rfl

/-- C10: a payload that parses to a non-object top-level value makes the
field access raise an AttributeError that escapes the JSONDecodeError
branch and is caught by the outer per-request handler: a generic error is
printed and recorded, the not-JSON path is not taken, and the loop
continues. -/
theorem c10_non_object_payload_generic_error (agent : AgentInfo)
    (msg text : String) (v : Json) (h : v.isObj = false) :
    (detectTurn agent msg (.success text) (.ok v)).2 = Control.next ∧
    Event.errorMsg (PyExc.attributeError v.pyType).message ∈
      (detectTurn agent msg (.success text) (.ok v)).1 ∧
    Event.spanAttr "error" (.str (PyExc.attributeError v.pyType).message) ∈
      (detectTurn agent msg (.success text) (.ok v)).1 ∧
    (∀ s, Event.notJson s ∉ (detectTurn agent msg (.success text) (.ok v)).1) ∧
    Event.spanAttr "error" (.str "Invalid JSON response") ∉
      (detectTurn agent msg (.success text) (.ok v)).1 := by
  cases v
  case obj fields => simp [Json.isObj] at h
  all_goals
    refine ⟨rfl, ?_, ?_, ?_, ?_⟩ <;>
      simp [detectTurn, handleParsed, displayBody, pyGet, Json.pyType,
        PyExc.message, bind, Except.bind, pure, Except.pure]

/-- Witness for c10_non_object_payload_generic_error on a JSON array
payload. -/
theorem c10_non_object_payload_generic_error_witness :
    Event.errorMsg "list object has no attribute get" ∈
      (detectTurn ⟨"DetectUserIntentAgent", "1", none⟩ "m" (.success "[1]")
        (.ok (.arr [.num 1]))).1 :=
  (c10_non_object_payload_generic_error ⟨"DetectUserIntentAgent", "1", none⟩
    "m" "[1]" (.arr [.num 1]) rfl).2.1

/-- C4 counterexample: callPromptAgent.py performs no configuration
validation: with every environment variable missing it still constructs
the client with the missing (None) endpoint and issues the first network
request, and no error is raised beforehand. -/
theorem c4_counterexample :
    StartupEvent.constructClient none ∈ promptClientStartup (fun _ => none) ∧
    StartupEvent.networkCall ∈ promptClientStartup (fun _ => none) ∧
    ∀ m, StartupEvent.raiseMissing m ∉ promptClientStartup (fun _ => none) := by
  refine ⟨by simp [promptClientStartup], by simp [promptClientStartup], ?_⟩
  intro m
  simp [promptClientStartup]

/-- C4 (amended): callDetectIntentAgent.py and callFabricAgent.py raise
on a missing project endpoint before constructing a client, and
createDetectIntentAgent.py raises before any network call when any of its
required variables is missing; callPromptAgent.py however always
constructs the client and issues the request, with no validation. -/
theorem c4_validation_per_script (env : Env) :
    (pyFalsyEnv (env "AZURE_AI_PROJECT_ENDPOINT") = true →
      detectClientStartup env =
        [.raiseMissing
          "Missing required environment variable: AZURE_AI_PROJECT_ENDPOINT"] ∧
      fabricClientStartup env =
        [.raiseMissing
          "Missing required environment variable: AZURE_AI_PROJECT_ENDPOINT"]) ∧
    (∀ v ∈ requiredVarsDetectSetup, pyFalsyEnv (env v) = true →
      (∃ m, StartupEvent.raiseMissing m ∈ createDetectIntentStartup env) ∧
      StartupEvent.networkCall ∉ createDetectIntentStartup env ∧
      ∀ oe, StartupEvent.constructClient oe ∉ createDetectIntentStartup env) ∧
    promptClientStartup env =
      [.constructClient (env "AZURE_AI_PROJECT_ENDPOINT"), .networkCall] := by
  refine ⟨fun h => ?_, fun v hv hfal => ?_, rfl⟩
  · constructor <;> simp [detectClientStartup, fabricClientStartup, h]
  · have hmem : v ∈ requiredVarsDetectSetup.filter (fun w => pyFalsyEnv (env w)) :=
      List.mem_filter.mpr ⟨hv, hfal⟩
    unfold createDetectIntentStartup
    cases hfil : requiredVarsDetectSetup.filter (fun w => pyFalsyEnv (env w)) with
    | nil =>
      rw [hfil] at hmem
      simp at hmem
    | cons a l => simp

/-- Witness for c4_validation_per_script with the whole environment
unset. -/
theorem c4_validation_per_script_witness :
    detectClientStartup (fun _ => none) =
      [.raiseMissing
        "Missing required environment variable: AZURE_AI_PROJECT_ENDPOINT"] :=
  ((c4_validation_per_script (fun _ => none)).1 rfl).1
